import Mathlib

/-!
Verification of the passkey idiom of `src/Passkey.h`.

The header consists of three preprocessor definitions, `PK_BEGIN`,
`PK_ALLOW` and `PK_END`, which together expand to one C++ class
definition.  We embed the expansion as a small class-definition AST
(`ClassDef`), translate each of the three preprocessor definitions into a
function building that AST, and model the host language's access-control
rules (who may call a private constructor, what a deleted member means) as
executable predicates over the AST.  A minimal statement language is
included so that the emptiness of the generated constructor bodies, and
hence the absence of runtime effects, is a provable fact rather than a
modelling artifact.
-/

namespace Passkey

/-- Statements of a C++ member-function body, restricted to what is needed
to observe effects: a store to a named variable and a thrown error.  The
constructor bodies generated by `src/Passkey.h` (lines 46-47) are the empty
statement list `[]`, written `{ /* Intentionally blank */ }` in the source. -/
inductive Stmt where
  | assign (lhs : String) (rhs : Int)
  | throwErr (msg : String)
deriving DecidableEq

/-- Observable program state: a trace of stores. -/
abbrev ProgState := List (String × Int)

/-- Execute one statement. -/
def execStmt : Stmt → ProgState → Except String ProgState
  | Stmt.assign x v, s => Except.ok ((x, v) :: s)
  | Stmt.throwErr m, _ => Except.error m

/-- Execute a statement list (a member-function body). -/
def execStmts : List Stmt → ProgState → Except String ProgState
  | [], s => Except.ok s
  | st :: rest, s =>
    match execStmt st s with
    | Except.ok s2 => execStmts rest s2
    | Except.error m => Except.error m

/-- C++ member access levels. -/
inductive Access where
  | priv
  | pub
deriving DecidableEq

/-- Member declarations of a C++ class, restricted to the forms a passkey
expansion could contain: a default constructor with a body, a copy
constructor with a body, a copy-assignment operator (possibly `= delete`),
and a data member. -/
inductive Member where
  | defaultCtor (a : Access) (body : List Stmt)
  | copyCtor (a : Access) (body : List Stmt)
  | copyAssign (a : Access) (deleted : Bool)
  | dataMember (a : Access) (nm : String)
deriving DecidableEq

/-- The access level of a member declaration. -/
def memberAccess : Member → Access
  | Member.defaultCtor a _ => a
  | Member.copyCtor a _ => a
  | Member.copyAssign a _ => a
  | Member.dataMember a _ => a

/-- A C++ class definition: its name, its member declarations, and its
friend declarations (`friend T;`). -/
structure ClassDef where
  name : String
  members : List Member
  friends : List String
deriving DecidableEq

/-- `PK_BEGIN(_PasskeyName)` (src/Passkey.h lines 42-48): opens
`class _PasskeyName` with a `private:` section holding a default
constructor with an intentionally blank body, a copy constructor with an
intentionally blank body, and a copy-assignment operator declared
`= delete`. -/
def PK_BEGIN (n : String) : ClassDef :=
  { name := n
  , members :=
      [ Member.defaultCtor Access.priv []
      , Member.copyCtor Access.priv []
      , Member.copyAssign Access.priv true ]
  , friends := [] }

/-- `PK_ALLOW(_ClassName)` (src/Passkey.h lines 50-51): adds
`friend _ClassName;` to the class definition being accumulated. -/
def PK_ALLOW (cd : ClassDef) (t : String) : ClassDef :=
  { cd with friends := cd.friends ++ [t] }

/-- `PK_END` (src/Passkey.h lines 53-54): closes the class definition
(`};`); it adds nothing to the accumulated definition. -/
def PK_END (cd : ClassDef) : ClassDef :=
  cd

/-- The combined expansion of
`PK_BEGIN(n) PK_ALLOW(t1) ... PK_ALLOW(tk) PK_END`. -/
def pkExpand (n : String) (allows : List String) : ClassDef :=
  PK_END (List.foldl PK_ALLOW (PK_BEGIN n) allows)

/-- C++ access rule for private members: a private member of class `cd` is
accessible from the context of type `ctx` iff `ctx` is the class itself or
`ctx` is declared a friend of `cd`. -/
def hasPrivateAccess (cd : ClassDef) (ctx : String) : Bool :=
  ctx == cd.name || cd.friends.contains ctx

/-- Whether a member declared at access level `a` in `cd` is accessible
from the context of type `ctx`. -/
def memberAccessible (cd : ClassDef) (a : Access) (ctx : String) : Bool :=
  match a with
  | Access.pub => true
  | Access.priv => hasPrivateAccess cd ctx

/-- The declared default constructor of a class, if any. -/
def findDefaultCtor (cd : ClassDef) : Option (Access × List Stmt) :=
  cd.members.findSome? fun m =>
    match m with
    | Member.defaultCtor a b => some (a, b)
    | _ => none

/-- The declared copy constructor of a class, if any. -/
def findCopyCtor (cd : ClassDef) : Option (Access × List Stmt) :=
  cd.members.findSome? fun m =>
    match m with
    | Member.copyCtor a b => some (a, b)
    | _ => none

/-- The declared copy-assignment operator of a class, if any, with its
`deleted` flag. -/
def findCopyAssign (cd : ClassDef) : Option (Access × Bool) :=
  cd.members.findSome? fun m =>
    match m with
    | Member.copyAssign a d => some (a, d)
    | _ => none

/-- Whether the expression `cd.name()` compiles in the context of type
`ctx`: the declared default constructor must be accessible there.  When no
default constructor is declared none is implicitly generated for the
classes at hand (they declare other constructors), so construction fails. -/
def canDefaultConstruct (cd : ClassDef) (ctx : String) : Bool :=
  match findDefaultCtor cd with
  | some (a, _) => memberAccessible cd a ctx
  | none => false

/-- Whether copy-constructing an existing instance of `cd` compiles in the
context of type `ctx`: the declared copy constructor must be accessible
there (absent a declaration, the implicitly generated copy constructor is
public). -/
def canCopyConstruct (cd : ClassDef) (ctx : String) : Bool :=
  match findCopyCtor cd with
  | some (a, _) => memberAccessible cd a ctx
  | none => true

/-- Whether assigning one instance of `cd` to another compiles in the
context of type `ctx`: a deleted copy-assignment operator is unusable from
every context; otherwise the declared one must be accessible (absent a
declaration, the implicitly generated operator is public). -/
def canCopyAssign (cd : ClassDef) (ctx : String) : Bool :=
  match findCopyAssign cd with
  | some (a, d) => !d && memberAccessible cd a ctx
  | none => true

/-- Outcome of code of type `ctx` attempting to build an instance of a
class: refused by the compiler, failed at run time, or succeeded leaving
the program state `s`. -/
inductive Outcome where
  | compileError
  | runtimeError (msg : String)
  | ok (s : ProgState)
deriving DecidableEq

/-- Whether an outcome is a runtime error. -/
def Outcome.isRuntimeErr : Outcome → Bool
  | Outcome.runtimeError _ => true
  | _ => false

/-- Attempt `cd.name()` from the context of type `ctx` in state `s`: a
compile error when the default constructor is inaccessible, otherwise the
result of executing the constructor body. -/
def attemptDefaultConstruct (cd : ClassDef) (ctx : String) (s : ProgState) : Outcome :=
  if canDefaultConstruct cd ctx then
    match findDefaultCtor cd with
    | some (_, body) =>
      match execStmts body s with
      | Except.ok s2 => Outcome.ok s2
      | Except.error m => Outcome.runtimeError m
    | none => Outcome.ok s
  else Outcome.compileError

/-- Attempt to copy-construct an instance of `cd` from the context of type
`ctx` in state `s`. -/
def attemptCopyConstruct (cd : ClassDef) (ctx : String) (s : ProgState) : Outcome :=
  if canCopyConstruct cd ctx then
    match findCopyCtor cd with
    | some (_, body) =>
      match execStmts body s with
      | Except.ok s2 => Outcome.ok s2
      | Except.error m => Outcome.runtimeError m
    | none => Outcome.ok s
  else Outcome.compileError

/-- A callee function gated by a passkey (src/Passkey.h lines 30-38): it
receives a nameless const reference to the passkey type, so the callee
names only the passkey type, never the caller types. -/
structure LockedFunction where
  fname : String
  passkeyType : String
deriving DecidableEq

/-- Whether code of type `caller` can call a locked function gated by
passkey class `pk`: the function's passkey type must be `pk` and the caller
must be able to construct the passkey inline
(`aClassObject->MyLockedFunction(0, MyClassDefaultPasskey())`,
src/Passkey.h line 38). -/
def canCall (lf : LockedFunction) (pk : ClassDef) (caller : String) : Bool :=
  lf.passkeyType == pk.name && canDefaultConstruct pk caller

/-- Top-level items of a header file: `#pragma once`, a comment, one of the
three `#define` directives, or some other declaration (a function, data
structure or other runtime code). -/
inductive HeaderItem where
  | pragmaOnce
  | blockComment
  | defineDirective (nm : String)
  | otherDecl (nm : String)
deriving DecidableEq

/-- The top-level items of src/Passkey.h, in order: the file banner
comment, `#pragma once`, the usage documentation comment, and the three
`#define` directives. -/
def passkeyHeaderItems : List HeaderItem :=
  [ HeaderItem.blockComment
  , HeaderItem.pragmaOnce
  , HeaderItem.blockComment
  , HeaderItem.defineDirective "PK_BEGIN"
  , HeaderItem.defineDirective "PK_ALLOW"
  , HeaderItem.defineDirective "PK_END" ]

/-- The names of the `#define` directives of the header, in order. -/
def headerDefineNames : List String :=
  passkeyHeaderItems.filterMap fun i =>
    match i with
    | HeaderItem.defineDirective nm => some nm
    | _ => none

/-- Whether a header item introduces a declaration, function, data
structure or runtime code: anything besides comments, `#pragma once` and
the preprocessor definitions themselves. -/
def isOtherDecl : HeaderItem → Bool
  | HeaderItem.otherDecl _ => true
  | _ => false

/-- Classifier written from the words of claim C3: a member declaration
that is a private constructor.  (Friend declarations live in
`ClassDef.friends`, so under C3 every entry of `ClassDef.members` would
have to satisfy this predicate.) -/
def specPrivateCtorOnly : Member → Bool
  | Member.defaultCtor Access.priv _ => true
  | Member.copyCtor Access.priv _ => true
  | _ => false

/-- A private copy-assignment operator declared `= delete`. -/
def isDeletedPrivCopyAssign : Member → Bool
  | Member.copyAssign Access.priv true => true
  | _ => false

/-- Whether the class declares any data member. -/
def hasDataMember (cd : ClassDef) : Bool :=
  cd.members.any fun m =>
    match m with
    | Member.dataMember _ _ => true
    | _ => false

/-- Whether the class has any public member. -/
def hasPublicMember (cd : ClassDef) : Bool :=
  cd.members.any fun m => memberAccess m == Access.pub

end Passkey

namespace Passkey

theorem foldl_allow_name (cd : ClassDef) (l : List String) :
    (List.foldl PK_ALLOW cd l).name = cd.name := by
  induction l generalizing cd with
  | nil => rfl
  | cons t rest ih =>
    rw [List.foldl_cons, ih]
    rfl

theorem foldl_allow_members (cd : ClassDef) (l : List String) :
    (List.foldl PK_ALLOW cd l).members = cd.members := by
  induction l generalizing cd with
  | nil => rfl
  | cons t rest ih =>
    rw [List.foldl_cons, ih]
    rfl

theorem foldl_allow_friends (cd : ClassDef) (l : List String) :
    (List.foldl PK_ALLOW cd l).friends = cd.friends ++ l := by
  induction l generalizing cd with
  | nil => simp
  | cons t rest ih =>
    rw [List.foldl_cons, ih]
    simp [PK_ALLOW]

theorem pkExpand_name (n : String) (allows : List String) :
    (pkExpand n allows).name = n :=
  foldl_allow_name (PK_BEGIN n) allows

theorem pkExpand_members (n : String) (allows : List String) :
    (pkExpand n allows).members =
      [ Member.defaultCtor Access.priv []
      , Member.copyCtor Access.priv []
      , Member.copyAssign Access.priv true ] :=
  foldl_allow_members (PK_BEGIN n) allows

theorem pkExpand_friends (n : String) (allows : List String) :
    (pkExpand n allows).friends = allows := by
  have h := foldl_allow_friends (PK_BEGIN n) allows
  simpa [PK_BEGIN] using h

theorem findDefaultCtor_pkExpand (n : String) (allows : List String) :
    findDefaultCtor (pkExpand n allows) = some (Access.priv, ([] : List Stmt)) := by
  rw [findDefaultCtor, pkExpand_members]
  rfl

theorem findCopyCtor_pkExpand (n : String) (allows : List String) :
    findCopyCtor (pkExpand n allows) = some (Access.priv, ([] : List Stmt)) := by
  rw [findCopyCtor, pkExpand_members]
  rfl

theorem findCopyAssign_pkExpand (n : String) (allows : List String) :
    findCopyAssign (pkExpand n allows) = some (Access.priv, true) := by
  rw [findCopyAssign, pkExpand_members]
  rfl

theorem canDefaultConstruct_pkExpand (n : String) (allows : List String) (ctx : String) :
    canDefaultConstruct (pkExpand n allows) ctx = (allows.contains ctx || ctx == n) := by
  rw [canDefaultConstruct, findDefaultCtor_pkExpand]
  simp [memberAccessible, hasPrivateAccess, pkExpand_name, pkExpand_friends, Bool.or_comm]

theorem canCopyConstruct_pkExpand (n : String) (allows : List String) (ctx : String) :
    canCopyConstruct (pkExpand n allows) ctx = (allows.contains ctx || ctx == n) := by
  rw [canCopyConstruct, findCopyCtor_pkExpand]
  simp [memberAccessible, hasPrivateAccess, pkExpand_name, pkExpand_friends, Bool.or_comm]

theorem canCopyAssign_pkExpand (n : String) (allows : List String) (ctx : String) :
    canCopyAssign (pkExpand n allows) ctx = false := by
  rw [canCopyAssign, findCopyAssign_pkExpand]
  rfl

theorem attemptDefaultConstruct_pkExpand (n : String) (allows : List String)
    (ctx : String) (s : ProgState) :
    attemptDefaultConstruct (pkExpand n allows) ctx s =
      if (allows.contains ctx || ctx == n) then Outcome.ok s else Outcome.compileError := by
  rw [attemptDefaultConstruct, canDefaultConstruct_pkExpand, findDefaultCtor_pkExpand]
  cases h : (allows.contains ctx || ctx == n) <;> simp [execStmts]

theorem attemptCopyConstruct_pkExpand (n : String) (allows : List String)
    (ctx : String) (s : ProgState) :
    attemptCopyConstruct (pkExpand n allows) ctx s =
      if (allows.contains ctx || ctx == n) then Outcome.ok s else Outcome.compileError := by
  rw [attemptCopyConstruct, canCopyConstruct_pkExpand, findCopyCtor_pkExpand]
  cases h : (allows.contains ctx || ctx == n) <;> simp [execStmts]

theorem contains_congr_of_mem_iff (l1 l2 : List String) (a : String)
    (h : a ∈ l1 ↔ a ∈ l2) : l1.contains a = l2.contains a := by
  by_cases hm : a ∈ l1
  · have h1 : l1.contains a = true := by simpa using hm
    have h2 : l2.contains a = true := by simpa using h.mp hm
    rw [h1, h2]
  · have hm2 : a ∉ l2 := fun hx => hm (h.mpr hx)
    have h1 : l1.contains a = false := by simpa using hm
    have h2 : l2.contains a = false := by simpa using hm2
    rw [h1, h2]

end Passkey

namespace Passkey

/-- C1: For every passkey declared with `PK_BEGIN(N)`, a sequence of
`PK_ALLOW` invocations and `PK_END`, and every type `C`, constructing an
instance of `N` from the context of `C` compiles iff `C` is among the types
named in the `PK_ALLOW` invocations or `C` is `N` itself: allowed types
compile, every other type (other than `N`) gets a compile error. -/
theorem C1_allowlist_gates_construction (N : String) (allows : List String) (C : String) :
    canDefaultConstruct (pkExpand N allows) C = (allows.contains C || C == N) :=
  canDefaultConstruct_pkExpand N allows C

/-- C2 as stated is false: copying an existing passkey instance is not
impossible in every context — the declared friend "T" can invoke the
private copy constructor of the passkey "N"; and default construction is
not restricted to the declared friend types — "N" itself can default
construct although the friend list is empty. -/
theorem C2_counterexample :
    canCopyConstruct (pkExpand "N" ["T"]) "T" = true ∧
    canDefaultConstruct (pkExpand "N" []) "N" = true := by
  refine ⟨?_, ?_⟩ <;> decide

/-- C2 amended: every passkey expansion is a token type whose assignment is
impossible in every context, and whose copy construction and default
construction are possible exactly for the declared friend types and the
passkey type itself. -/
theorem C2_amended_token_type (n : String) (allows : List String) (ctx : String) :
    canCopyConstruct (pkExpand n allows) ctx = (allows.contains ctx || ctx == n) ∧
    canCopyAssign (pkExpand n allows) ctx = false ∧
    canDefaultConstruct (pkExpand n allows) ctx = (allows.contains ctx || ctx == n) :=
  ⟨canCopyConstruct_pkExpand n allows ctx, canCopyAssign_pkExpand n allows ctx,
    canDefaultConstruct_pkExpand n allows ctx⟩

/-- C3 as stated is false: the expansion does not contain only private
constructors and friend declarations — the member list of `pkExpand "N"
["T"]` holds the copy-assignment operator declared `= delete`, which is not
a constructor. -/
theorem C3_counterexample :
    Member.copyAssign Access.priv true ∈ (pkExpand "N" ["T"]).members ∧
    specPrivateCtorOnly (Member.copyAssign Access.priv true) = false := by
  refine ⟨?_, rfl⟩
  rw [pkExpand_members]
  simp

/-- C3 amended: the header defines exactly the three names `PK_BEGIN`,
`PK_ALLOW`, `PK_END` and contains nothing else besides comments and
`#pragma once`; the combined expansion is a single class definition each of
whose members is a private constructor or the private deleted
copy-assignment operator, with one friend declaration per `PK_ALLOW`. -/
theorem C3_amended_three_defines_and_shape :
    headerDefineNames = ["PK_BEGIN", "PK_ALLOW", "PK_END"] ∧
    (passkeyHeaderItems.all fun i => !isOtherDecl i) = true ∧
    ∀ (n : String) (allows : List String),
      ((pkExpand n allows).members.all fun m =>
          specPrivateCtorOnly m || isDeletedPrivCopyAssign m) = true ∧
      (pkExpand n allows).friends = allows := by
  refine ⟨rfl, rfl, fun n allows => ⟨?_, pkExpand_friends n allows⟩⟩
  rw [pkExpand_members]
  rfl

/-- C4: the mechanism has no runtime failure modes: no construction attempt
ever yields a runtime error, and a (compile-time) error occurs exactly when
the attempting context is neither on the allow list nor the passkey type
itself. -/
theorem C4_no_runtime_failure_modes (n : String) (allows : List String)
    (ctx : String) (s : ProgState) :
    (attemptDefaultConstruct (pkExpand n allows) ctx s).isRuntimeErr = false ∧
    (attemptCopyConstruct (pkExpand n allows) ctx s).isRuntimeErr = false ∧
    (attemptDefaultConstruct (pkExpand n allows) ctx s = Outcome.compileError ↔
      (allows.contains ctx = false ∧ (ctx == n) = false)) := by
  rw [attemptDefaultConstruct_pkExpand, attemptCopyConstruct_pkExpand]
  cases h1 : allows.contains ctx <;> cases h2 : (ctx == n) <;>
    simp [Outcome.isRuntimeErr]

/-- C5: construction is a no-op: the expansion has no data members, both
declared constructors have empty bodies, and any construction attempt
either is rejected by the compiler or succeeds leaving the program state
unchanged. -/
theorem C5_construction_is_noop (n : String) (allows : List String)
    (ctx : String) (s : ProgState) :
    hasDataMember (pkExpand n allows) = false ∧
    findDefaultCtor (pkExpand n allows) = some (Access.priv, ([] : List Stmt)) ∧
    findCopyCtor (pkExpand n allows) = some (Access.priv, ([] : List Stmt)) ∧
    (attemptDefaultConstruct (pkExpand n allows) ctx s = Outcome.compileError ∨
      attemptDefaultConstruct (pkExpand n allows) ctx s = Outcome.ok s) ∧
    (attemptCopyConstruct (pkExpand n allows) ctx s = Outcome.compileError ∨
      attemptCopyConstruct (pkExpand n allows) ctx s = Outcome.ok s) := by
  refine ⟨?_, findDefaultCtor_pkExpand n allows, findCopyCtor_pkExpand n allows, ?_, ?_⟩
  · simp [hasDataMember, pkExpand_members]
  · rw [attemptDefaultConstruct_pkExpand]
    cases h : (allows.contains ctx || ctx == n) <;> simp
  · rw [attemptCopyConstruct_pkExpand]
    cases h : (allows.contains ctx || ctx == n) <;> simp

/-- C6: friendship direction is inverted: the locked function names only
the passkey type (never the caller types), the allowed caller names appear
exactly as the friend declarations inside the passkey class definition, and
who can call the locked function is determined entirely by the passkey's
allow list. -/
theorem C6_inverted_friendship (n fname : String) (allows : List String) (caller : String) :
    (pkExpand n allows).friends = allows ∧
    canCall { fname := fname, passkeyType := n } (pkExpand n allows) caller
      = (allows.contains caller || caller == n) := by
  refine ⟨pkExpand_friends n allows, ?_⟩
  simp [canCall, pkExpand_name, canDefaultConstruct_pkExpand]

/-- C7: the expansion has exactly the members private default constructor,
private copy constructor and private deleted copy-assignment operator, one
friend declaration per `PK_ALLOW`, no public members; and some avenue to an
instance (construction, copy or assignment) exists for `ctx` exactly when
`ctx` is on the allow list or is the passkey type itself — everyone else
has none. -/
theorem C7_exact_members_no_avenue (n : String) (allows : List String) (ctx : String) :
    (pkExpand n allows).members =
      [ Member.defaultCtor Access.priv []
      , Member.copyCtor Access.priv []
      , Member.copyAssign Access.priv true ] ∧
    (pkExpand n allows).friends = allows ∧
    hasPublicMember (pkExpand n allows) = false ∧
    (canDefaultConstruct (pkExpand n allows) ctx ||
      canCopyConstruct (pkExpand n allows) ctx ||
      canCopyAssign (pkExpand n allows) ctx) = (allows.contains ctx || ctx == n) := by
  refine ⟨pkExpand_members n allows, pkExpand_friends n allows, ?_, ?_⟩
  · simp [hasPublicMember, pkExpand_members, memberAccess]
  · rw [canDefaultConstruct_pkExpand, canCopyConstruct_pkExpand, canCopyAssign_pkExpand]
    cases h : (allows.contains ctx || ctx == n) <;> simp

/-- C8: two allow lists with the same members (in particular permutations
or duplications of one another) grant construction and copy access to
precisely the same set of types. -/
theorem C8_allow_set_semantics (n : String) (l1 l2 : List String)
    (h : ∀ t : String, t ∈ l1 ↔ t ∈ l2) (ctx : String) :
    canDefaultConstruct (pkExpand n l1) ctx = canDefaultConstruct (pkExpand n l2) ctx ∧
    canCopyConstruct (pkExpand n l1) ctx = canCopyConstruct (pkExpand n l2) ctx := by
  have hc := contains_congr_of_mem_iff l1 l2 ctx (h ctx)
  rw [canDefaultConstruct_pkExpand, canDefaultConstruct_pkExpand,
    canCopyConstruct_pkExpand, canCopyConstruct_pkExpand, hc]
  exact ⟨rfl, rfl⟩

/-- Witness for C8: the duplicated permutation `["B", "A", "A"]` of
`["A", "B"]` grants the same access, checked at context "A". -/
theorem C8_allow_set_semantics_witness :
    canDefaultConstruct (pkExpand "N" ["A", "B"]) "A"
        = canDefaultConstruct (pkExpand "N" ["B", "A", "A"]) "A" ∧
    canCopyConstruct (pkExpand "N" ["A", "B"]) "A"
        = canCopyConstruct (pkExpand "N" ["B", "A", "A"]) "A" := by
  have h : ∀ t : String, t ∈ ["A", "B"] ↔ t ∈ ["B", "A", "A"] := by
    intro t
    simp only [List.mem_cons, List.not_mem_nil, or_false]
    tauto
  exact C8_allow_set_semantics "N" ["A", "B"] ["B", "A", "A"] h "A"

/-- C9: `PK_BEGIN(n)` immediately followed by `PK_END` is still a
well-formed class definition with the three private members and no friends;
only `n` itself can construct it, and a locked function requiring it is
uncallable from every other context. -/
theorem C9_empty_allowlist_locks_everyone (n fname ctx : String) :
    (pkExpand n []).friends = [] ∧
    (pkExpand n []).members =
      [ Member.defaultCtor Access.priv []
      , Member.copyCtor Access.priv []
      , Member.copyAssign Access.priv true ] ∧
    canDefaultConstruct (pkExpand n []) ctx = (ctx == n) ∧
    canCall { fname := fname, passkeyType := n } (pkExpand n []) ctx = (ctx == n) := by
  refine ⟨pkExpand_friends n [], pkExpand_members n [], ?_, ?_⟩
  · rw [canDefaultConstruct_pkExpand]
    simp
  · simp [canCall, pkExpand_name, canDefaultConstruct_pkExpand]

end Passkey
